import Mathlib

/-!
Verification of the OAuth callback client (basic-mcp-oauth, file
src/basic_mcp_server/client.py) against its natural-language specification.

The development shallowly embeds the relevant Python code:

* CallbackHandler.do_GET        — pure function from parsed query parameters
                                  and the shared callback_data dict to the
                                  updated dict and the HTTP response;
* CallbackServer.wait_for_callback — the sleep-poll loop, discretised: the
                                  loop body runs once per 0.1 s tick, so a
                                  timeout of t seconds allows exactly
                                  ceil(10 * t) polls (the n-th poll happens
                                  iff n * 0.1 < t);
* CallbackServer.stop           — guarded shutdown / close / join sequence,
                                  returning Except to model a possible
                                  Python exception from Thread.join;
* MCPAuthClient.connect_2_mcp_server — modelled as the trace of listener
                                  lifecycle events produced for a given
                                  environment (bind outcome, transport
                                  string, whether the OAuth callback wait is
                                  reached, its outcome, session outcome);
* MCPAuthClient.interactive_loop — pure function from the list of input
                                  lines (EOF at end of list) to the list of
                                  user-visible events, parameterised by an
                                  abstract json.loads;
* MCPAuthClient.list_tools / call_tool — guarded by the self.session check.

Query strings are embedded at the parse_qs boundary: a query is the list of
its key/value pairs in order (parse_qs keeps the first occurrence first and
drops blank values, so every value present is a non-empty string; the
embedding does not rely on that).
-/

/-- Python truthiness of an Optional[str] value: None and the empty string
are falsy, every other string is truthy. -/
def pyTruthy : Option String → Bool
  | none => false
  | some s => if s = "" then false else true

/-- A parsed query string, as produced by urllib.parse.parse_qs: key/value
pairs in order of appearance. -/
abbrev QueryParams := List (String × String)

/-- First value recorded for a key, or none: qget q k = some v models both
the Python membership test (k in query_params) and query_params[k][0]. -/
def qget : QueryParams → String → Option String
  | [], _ => none
  | (k1, v) :: rest, k => if k1 = k then some v else qget rest k

/-- The shared callback_data dictionary of CallbackServer, initialised to
all-None and mutated by CallbackHandler.do_GET. -/
structure CallbackData where
  authorization_code : Option String
  state : Option String
  error : Option String
deriving DecidableEq, Repr

/-- CallbackServer.__init__ sets callback_data to all-None. -/
def initCallbackData : CallbackData :=
  { authorization_code := none, state := none, error := none }

/-- The status code and body written by one do_GET invocation. -/
structure HttpResponse where
  status : Nat
  body : String
deriving DecidableEq, Repr

/-- The AUTH_SUCCESSFUL_MSG page of client.py. -/
def AUTH_SUCCESSFUL_MSG : String :=
  "\n<html>\n<body>\n    <h1>Authorization Successful!</h1>\n    <p>You can close this window and return to the terminal.</p>\n    <script>setTimeout(() => window.close(), 2000);</script>\n</body>\n</html>\n"

/-- get_failure_msg of client.py; it interpolates query_params[error][0]
(only ever called with the error key present, so the getD default is
unreachable at call sites). -/
def get_failure_msg (query_params : QueryParams) : String :=
  "\n<html>\n<body>\n    <h1>Authorization Failed</h1>\n    <p>Error: "
    ++ (qget query_params "error").getD ""
    ++ "</p>\n    <p>You can close this window and return to the terminal.</p>\n</body>\n</html>\n"

/-- CallbackHandler.do_GET: the code branch stores code and state (state is
None when absent) and answers 200 with the success page; the error branch
stores the error and answers 400 with the failure page; otherwise 404 with
an empty body. The assignments are plain dict writes with no guard. -/
def CallbackHandler.do_GET (q : QueryParams) (callback_data : CallbackData) :
    CallbackData × HttpResponse :=
  match qget q "code" with
  | some c =>
      ({ callback_data with authorization_code := some c, state := qget q "state" },
       { status := 200, body := AUTH_SUCCESSFUL_MSG })
  | none =>
      match qget q "error" with
      | some e =>
          ({ callback_data with error := some e },
           { status := 400, body := get_failure_msg q })
      | none => (callback_data, { status := 404, body := "" })

/-- The callback_data state after the listener has handled a sequence of
GET requests in order. -/
def processRequests (d : CallbackData) (reqs : List QueryParams) : CallbackData :=
  reqs.foldl (fun d1 q => (CallbackHandler.do_GET q d1).1) d

/-- C4: for one GET request handled while the outcome is pending: a query
containing code records code and state (state none when absent) and answers
200 with the success page; a query containing error (and no code) records
the error and answers 400 with the page echoing the error; a query with
neither answers 404 and leaves the outcome pending. -/
theorem do_GET_single_request_spec (q : QueryParams) :
    (∀ c, qget q "code" = some c →
        CallbackHandler.do_GET q initCallbackData =
          ({ authorization_code := some c, state := qget q "state", error := none },
           { status := 200, body := AUTH_SUCCESSFUL_MSG })) ∧
    (qget q "code" = none → ∀ e, qget q "error" = some e →
        CallbackHandler.do_GET q initCallbackData =
          ({ authorization_code := none, state := none, error := some e },
           { status := 400, body := get_failure_msg q })) ∧
    (qget q "code" = none → qget q "error" = none →
        CallbackHandler.do_GET q initCallbackData =
          (initCallbackData, { status := 404, body := "" })) := by
  refine ⟨fun c hc => ?_, fun hc e he => ?_, fun hc he => ?_⟩
  · simp [CallbackHandler.do_GET, hc, initCallbackData]
  · simp [CallbackHandler.do_GET, hc, he, initCallbackData]
  · simp [CallbackHandler.do_GET, hc, he]

/-- Witness for C4: concrete success and error redirects evaluated through
do_GET_single_request_spec. -/
theorem do_GET_single_request_spec_witness :
    CallbackHandler.do_GET [("code", "ABC123"), ("state", "xyz")] initCallbackData =
      ({ authorization_code := some "ABC123", state := some "xyz", error := none },
       { status := 200, body := AUTH_SUCCESSFUL_MSG }) ∧
    CallbackHandler.do_GET [("error", "access_denied")] initCallbackData =
      ({ authorization_code := none, state := none, error := some "access_denied" },
       { status := 400, body := get_failure_msg [("error", "access_denied")] }) := by
  constructor
  · have h := (do_GET_single_request_spec [("code", "ABC123"), ("state", "xyz")]).1
      "ABC123" (by decide)
    simpa using h
  · have h := (do_GET_single_request_spec [("error", "access_denied")]).2.1
      (by decide) "access_denied" (by decide)
    simpa using h

/-- C9: when a query contains both code and error, do_GET takes the code
branch exclusively: code and state are recorded, the response is 200 with
the success page, and the error field is left untouched. -/
theorem do_GET_code_precedence (q : QueryParams) (d : CallbackData) (c : String)
    (hc : qget q "code" = some c) (he : (qget q "error").isSome = true) :
    CallbackHandler.do_GET q d =
      ({ d with authorization_code := some c, state := qget q "state" },
       { status := 200, body := AUTH_SUCCESSFUL_MSG }) ∧
    (CallbackHandler.do_GET q d).1.error = d.error := by
  have h1 : CallbackHandler.do_GET q d =
      ({ d with authorization_code := some c, state := qget q "state" },
       { status := 200, body := AUTH_SUCCESSFUL_MSG }) := by
    simp [CallbackHandler.do_GET, hc]
  exact ⟨h1, by rw [h1]⟩

/-- Witness for C9: a redirect carrying both code and error evaluated
through do_GET_code_precedence. -/
theorem do_GET_code_precedence_witness :
    CallbackHandler.do_GET [("code", "A"), ("error", "denied")] initCallbackData =
      ({ authorization_code := some "A", state := none, error := none },
       { status := 200, body := AUTH_SUCCESSFUL_MSG }) ∧
    (CallbackHandler.do_GET [("code", "A"), ("error", "denied")] initCallbackData).1.error
      = initCallbackData.error := by
  have h := do_GET_code_precedence [("code", "A"), ("error", "denied")] initCallbackData
    "A" (by decide) (by decide)
  exact ⟨by simpa using h.1, h.2⟩

/-- Counterexample for C1: the outcome slot is not write-once. After a first
terminal request records code A, a second request carrying code B changes
the recorded outcome to B: do_GET assigns unconditionally, so the recorded
outcome is not determined by the first terminal request. -/
theorem processRequests_overwrites_counterexample :
    (processRequests initCallbackData [[("code", "A")]]).authorization_code = some "A" ∧
    pyTruthy (processRequests initCallbackData [[("code", "A")]]).authorization_code = true ∧
    (processRequests initCallbackData [[("code", "A")], [("code", "B")]]).authorization_code
      = some "B" ∧
    (processRequests initCallbackData [[("code", "A")], [("code", "B")]]).authorization_code
      ≠ (processRequests initCallbackData [[("code", "A")]]).authorization_code := by
  refine ⟨by decide, by decide, by decide, by decide⟩

/-- C1 (amended): the recorded outcome is last-writer-wins, not first-writer
-wins. Over any sequence of GET requests, a final request containing code
overwrites the recorded code and state; a final request containing error
(and no code) overwrites the recorded error; a final request containing
neither leaves the outcome exactly as the preceding requests left it. -/
theorem processRequests_last_writer_wins (d : CallbackData)
    (reqs : List QueryParams) (q : QueryParams) :
    (∀ c, qget q "code" = some c →
        (processRequests d (reqs ++ [q])).authorization_code = some c ∧
        (processRequests d (reqs ++ [q])).state = qget q "state") ∧
    (qget q "code" = none → ∀ e, qget q "error" = some e →
        (processRequests d (reqs ++ [q])).error = some e) ∧
    (qget q "code" = none → qget q "error" = none →
        processRequests d (reqs ++ [q]) = processRequests d reqs) := by
  have hstep : processRequests d (reqs ++ [q]) =
      (CallbackHandler.do_GET q (processRequests d reqs)).1 := by
    simp [processRequests, List.foldl_append]
  refine ⟨fun c hc => ?_, fun hc e he => ?_, fun hc he => ?_⟩
  · rw [hstep]; simp [CallbackHandler.do_GET, hc]
  · rw [hstep]; simp [CallbackHandler.do_GET, hc, he]
  · rw [hstep]; simp [CallbackHandler.do_GET, hc, he]

/-- Witness for the amended C1: with two code-bearing requests, the second
one determines the recorded code. -/
theorem processRequests_last_writer_wins_witness :
    (processRequests initCallbackData ([[("code", "A")]] ++ [[("code", "B")]])).authorization_code
      = some "B" :=
  ((processRequests_last_writer_wins initCallbackData [[("code", "A")]]
      [("code", "B")]).1 "B" (by decide)).1

/-- Result of CallbackServer.wait_for_callback: the returned authorization
code, the raised OAuth-error exception, or the raised timeout exception. -/
inductive WaitResult
  | code (c : String)
  | oauthError (e : String)
  | timeout
deriving DecidableEq, Repr

/-- Whether the shared callback_data still holds no terminal outcome, under
the truthiness tests the Python loop performs. -/
def isPending (d : CallbackData) : Bool :=
  !pyTruthy d.authorization_code && !pyTruthy d.error

/-- Body of the sleep-poll loop of wait_for_callback, discretised: data n is
the snapshot of callback_data seen at the n-th poll, fuel is the number of
polls still allowed by the while condition. The branch order and truthiness
tests mirror the source: a truthy authorization_code returns it, else a
truthy error raises, else sleep and poll again; exhausted fuel raises the
timeout exception. -/
def waitPoll (data : ℕ → CallbackData) : ℕ → ℕ → WaitResult
  | 0, _ => WaitResult.timeout
  | fuel + 1, n =>
      if pyTruthy (data n).authorization_code = true then
        WaitResult.code ((data n).authorization_code.getD "")
      else if pyTruthy (data n).error = true then
        WaitResult.oauthError ((data n).error.getD "")
      else
        waitPoll data fuel (n + 1)

/-- Number of polls the while loop performs for a timeout of t seconds: the
n-th poll happens iff n * 0.1 < t, so the count is ceil(10 * t), clamped to
0 for non-positive t. -/
def pollCount (timeout : ℚ) : ℕ := (Int.ceil (10 * timeout)).toNat

/-- CallbackServer.wait_for_callback over a snapshot history of the shared
callback_data, starting at the first poll. -/
def CallbackServer.wait_for_callback (data : ℕ → CallbackData) (timeout : ℚ) :
    WaitResult :=
  waitPoll data (pollCount timeout) 0

theorem isPending_eq_true (d : CallbackData) :
    isPending d = true ↔
      pyTruthy d.authorization_code = false ∧ pyTruthy d.error = false := by
  cases h1 : pyTruthy d.authorization_code <;> cases h2 : pyTruthy d.error <;>
    simp [isPending, h1, h2]

theorem waitPoll_timeout_aux (data : ℕ → CallbackData) (fuel : ℕ) :
    ∀ n, (∀ m, m < fuel → isPending (data (n + m)) = true) →
      waitPoll data fuel n = WaitResult.timeout := by
  induction fuel with
  | zero => intro n _; rfl
  | succ k ih =>
      intro n h
      have h0 : isPending (data n) = true := by simpa using h 0 (Nat.succ_pos k)
      have hca := ((isPending_eq_true (data n)).1 h0).1
      have hce := ((isPending_eq_true (data n)).1 h0).2
      show waitPoll data (k + 1) n = WaitResult.timeout
      simp only [waitPoll, hca, hce, if_false, Bool.false_eq_true]
      apply ih
      intro m hm
      have hx := h (m + 1) (by omega)
      have heq : n + (m + 1) = (n + 1) + m := by omega
      rw [heq] at hx
      exact hx

theorem waitPoll_code_aux (data : ℕ → CallbackData) (fuel : ℕ) :
    ∀ n k c, k < fuel → (∀ m, m < k → isPending (data (n + m)) = true) →
      (data (n + k)).authorization_code = some c → c ≠ "" →
      waitPoll data fuel n = WaitResult.code c := by
  induction fuel with
  | zero => intro n k c hk; exact absurd hk (Nat.not_lt_zero k)
  | succ f ih =>
      intro n k c hk hpend hc hne
      cases k with
      | zero =>
          have hc0 : (data n).authorization_code = some c := by simpa using hc
          have htr : pyTruthy (data n).authorization_code = true := by
            rw [hc0]; simp [pyTruthy, hne]
          show waitPoll data (f + 1) n = WaitResult.code c
          simp only [waitPoll]
          rw [if_pos htr, hc0]
          rfl
      | succ k2 =>
          have h0 : isPending (data n) = true := by
            simpa using hpend 0 (Nat.succ_pos k2)
          have hca := ((isPending_eq_true (data n)).1 h0).1
          have hce := ((isPending_eq_true (data n)).1 h0).2
          show waitPoll data (f + 1) n = WaitResult.code c
          simp only [waitPoll, hca, hce, if_false, Bool.false_eq_true]
          apply ih (n + 1) k2 c (by omega)
          · intro m hm
            have hx := hpend (m + 1) (by omega)
            have heq : n + (m + 1) = (n + 1) + m := by omega
            rw [heq] at hx
            exact hx
          · have heq : n + (k2 + 1) = (n + 1) + k2 := by omega
            rw [heq] at hc
            exact hc
          · exact hne

/-- C3: wait_for_callback polls the outcome once per 0.1-second tick for at
most timeout seconds. If the outcome is still pending at every poll the
timeout allows, it raises the timeout exception; if the outcome first
becomes non-pending at some allowed poll with a recorded (non-empty)
authorization code, it returns exactly that code. -/
theorem wait_for_callback_poll_spec (data : ℕ → CallbackData) (t : ℚ) :
    ((∀ n, n < pollCount t → isPending (data n) = true) →
        CallbackServer.wait_for_callback data t = WaitResult.timeout) ∧
    (∀ n c, n < pollCount t → (∀ m, m < n → isPending (data m) = true) →
        (data n).authorization_code = some c → c ≠ "" →
        CallbackServer.wait_for_callback data t = WaitResult.code c) := by
  constructor
  · intro h
    apply waitPoll_timeout_aux data (pollCount t) 0
    intro m hm
    simpa using h m hm
  · intro n c hn hpend hc hne
    apply waitPoll_code_aux data (pollCount t) 0 n c hn
    · intro m hm
      simpa using hpend m hm
    · simpa using hc
    · exact hne

/-- Witness for C3: an all-pending history times out after a 1-second
timeout, and a history that records code abc at the very first poll returns
that code, both through wait_for_callback_poll_spec. -/
theorem wait_for_callback_poll_spec_witness :
    CallbackServer.wait_for_callback (fun _ => initCallbackData) 1 = WaitResult.timeout ∧
    CallbackServer.wait_for_callback
        (fun _ => { initCallbackData with authorization_code := some "abc" }) 1
      = WaitResult.code "abc" := by
  have hp : pollCount 1 = 10 := by
    unfold pollCount
    norm_num
    rfl
  constructor
  · exact (wait_for_callback_poll_spec (fun _ => initCallbackData) 1).1
      (fun n _ => by decide)
  · exact (wait_for_callback_poll_spec
        (fun _ => { initCallbackData with authorization_code := some "abc" }) 1).2
      0 "abc" (by rw [hp]; norm_num) (fun m hm => absurd hm (Nat.not_lt_zero m))
      rfl (by decide)

/-- C10: for any timeout t ≤ 0 the while condition fails before the first
poll, so wait_for_callback raises the timeout exception without consulting
the outcome slot — for every snapshot history, including ones where a code
or error is already recorded. -/
theorem wait_for_callback_nonpositive_timeout (data : ℕ → CallbackData) (t : ℚ)
    (ht : t ≤ 0) :
    CallbackServer.wait_for_callback data t = WaitResult.timeout := by
  have h10 : (10 : ℚ) * t ≤ 0 := by nlinarith
  have hceil : Int.ceil ((10 : ℚ) * t) ≤ 0 := Int.ceil_le.mpr (by exact_mod_cast h10)
  have hz : pollCount t = 0 := by
    unfold pollCount
    omega
  unfold CallbackServer.wait_for_callback
  rw [hz]
  rfl

/-- Witness for C10: with an authorization code already recorded before the
call, a zero timeout still raises the timeout exception. -/
theorem wait_for_callback_nonpositive_timeout_witness :
    CallbackServer.wait_for_callback
        (fun _ => { initCallbackData with authorization_code := some "abc" }) 0
      = WaitResult.timeout :=
  wait_for_callback_nonpositive_timeout
    (fun _ => { initCallbackData with authorization_code := some "abc" }) 0 (le_refl 0)

/-- A Python threading.Thread handle: join raises RuntimeError when the
thread was never started. In CallbackServer.start the thread is started
immediately after creation, so every stored thread is started. -/
structure PyThread where
  started : Bool
  alive : Bool
deriving DecidableEq, Repr

/-- threading.Thread.join with a timeout: returns on a started thread,
raises on a never-started one. -/
def PyThread.join (t : PyThread) : Except String PyThread :=
  if t.started then Except.ok { t with alive := false }
  else Except.error "cannot join thread before it is started"

/-- The socketserver.HTTPServer handle as far as stop touches it. -/
structure HTTPServerState where
  shut_down : Bool
  closed : Bool
deriving DecidableEq, Repr

/-- The two attributes of CallbackServer that stop reads: both are None
after __init__ and also when start never ran or failed before assigning
them. -/
structure CallbackServerState where
  server_instance : Option HTTPServerState
  thread : Option PyThread
deriving DecidableEq, Repr

/-- CallbackServer.stop: shutdown and close the server when one exists,
then join the thread when one exists. The only modelled exception source
is joining a never-started thread, which CallbackServer.start never
produces. -/
def CallbackServer.stop (s : CallbackServerState) :
    Except String CallbackServerState :=
  let s1 :=
    match s.server_instance with
    | none => s
    | some inst =>
        { s with server_instance := some { inst with shut_down := true, closed := true } }
  match s1.thread with
  | none => Except.ok s1
  | some th =>
      match th.join with
      | Except.ok th2 => Except.ok { s1 with thread := some th2 }
      | Except.error e => Except.error e

/-- Every thread CallbackServer.start stores has been started; states with
no thread satisfy this vacuously. -/
def threadOk (s : CallbackServerState) : Prop :=
  ∀ t, s.thread = some t → t.started = true

/-- C5: stop never raises and is idempotent. On any state whose stored
thread (if any) was started — which covers a listener never started, a
start that failed before creating the server or thread, and every state
start actually produces — stop succeeds, and calling stop again on the
resulting state succeeds as well. -/
theorem stop_idempotent_never_raises (s : CallbackServerState) (h : threadOk s) :
    ∃ s1, CallbackServer.stop s = Except.ok s1 ∧
      ∃ s2, CallbackServer.stop s1 = Except.ok s2 := by
  obtain ⟨si, th⟩ := s
  cases th with
  | none =>
      cases si with
      | none => exact ⟨_, rfl, _, rfl⟩
      | some inst => exact ⟨_, rfl, _, rfl⟩
  | some t =>
      have hst : t.started = true := h t rfl
      cases si with
      | none =>
          exact ⟨{ server_instance := none, thread := some { t with alive := false } },
            by simp [CallbackServer.stop, PyThread.join, hst],
            { server_instance := none, thread := some { t with alive := false } },
            by simp [CallbackServer.stop, PyThread.join, hst]⟩
      | some inst =>
          exact ⟨{ server_instance := some { shut_down := true, closed := true },
                   thread := some { t with alive := false } },
            by simp [CallbackServer.stop, PyThread.join, hst],
            { server_instance := some { shut_down := true, closed := true },
              thread := some { t with alive := false } },
            by simp [CallbackServer.stop, PyThread.join, hst]⟩

/-- Witness for C5: stopping a listener that was never started (no server
instance, no thread) succeeds, twice in a row. -/
theorem stop_idempotent_never_raises_witness :
    ∃ s1, CallbackServer.stop { server_instance := none, thread := none } = Except.ok s1 ∧
      ∃ s2, CallbackServer.stop s1 = Except.ok s2 :=
  stop_idempotent_never_raises { server_instance := none, thread := none }
    (fun t ht => Option.noConfusion ht)

/-- Listener lifecycle events observable during one run of
connect_2_mcp_server: the callback server was started, the OAuth callback
wait began, CallbackServer.stop ran, the MCP session ran. -/
inductive CEvent
  | start
  | wait
  | stop
  | sessionRun
deriving DecidableEq, Repr

/-- Outcome of the wait inside the injected callback_handler coroutine. -/
inductive WaitOutcome
  | gotCode (code : String) (state : Option String)
  | oauthError (e : String)
  | timedOut
deriving DecidableEq, Repr

/-- The environment one run of connect_2_mcp_server executes against:
whether HTTPServer binding raises, the transport string matched at the
match statement, whether the transport layer invokes the injected OAuth
callback_handler (it does so only when the server demands authorization
and the transport got that far), the outcome of the callback wait, and
whether the transport or session fails afterwards. -/
structure ConnectEnv where
  transport : String
  bindFails : Bool
  authReached : Bool
  waitOutcome : WaitOutcome
  sessionFails : Bool
deriving DecidableEq, Repr

/-- The two transport strings accepted by the match statement; note the
match looks for streamable-http with a hyphen. -/
def validTransport (t : String) : Bool :=
  t = "sse" || t = "streamable-http"

/-- MCPAuthClient.connect_2_mcp_server as the trace of listener lifecycle
events it produces. The whole body sits in a try/except that logs and
returns, so every path below ends by returning to the caller. start is
emitted once the HTTPServer ctor succeeds. Only when the transport layer
invokes the injected callback_handler does the wait happen, and
CallbackServer.stop runs in that coroutine's finally — immediately after
the wait, whatever its outcome. On every other path (bind failure,
unsupported transport raising ValueError, transport failure before
authorization) no stop event is ever emitted. -/
def MCPAuthClient.connect_2_mcp_server (env : ConnectEnv) : List CEvent :=
  if env.bindFails then []
  else
    CEvent.start ::
      (if validTransport env.transport = true then
        (if env.authReached then
          CEvent.wait :: CEvent.stop ::
            (match env.waitOutcome with
             | WaitOutcome.gotCode _ _ =>
                 if env.sessionFails then [] else [CEvent.sessionRun]
             | _ => [])
         else if env.sessionFails then [] else [CEvent.sessionRun])
       else [])

/-- Counterexample for C2: stop is not called on every exit path. When the
transport fails before the OAuth callback wait is ever reached, the run
starts the listener and returns without ever calling CallbackServer.stop,
leaking the listening socket until process exit. -/
theorem connect_2_mcp_server_leak_counterexample :
    MCPAuthClient.connect_2_mcp_server
        { transport := "streamable-http", bindFails := false, authReached := false,
          waitOutcome := WaitOutcome.timedOut, sessionFails := true }
      = [CEvent.start] ∧
    CEvent.stop ∉
      MCPAuthClient.connect_2_mcp_server
        { transport := "streamable-http", bindFails := false, authReached := false,
          waitOutcome := WaitOutcome.timedOut, sessionFails := true } := by
  refine ⟨by decide, by decide⟩

/-- C2 (amended): stop is guaranteed only on the exit paths that reach the
OAuth callback wait. Whenever the listener was started, the transport is a
supported one, and the transport layer invokes the injected
callback_handler, the trace starts the listener, begins the wait, and runs
CallbackServer.stop immediately after the wait finishes — before anything
else and before control returns — for every wait outcome (code, OAuth
error, timeout). -/
theorem connect_2_mcp_server_stop_after_wait (env : ConnectEnv)
    (hb : env.bindFails = false) (hv : validTransport env.transport = true)
    (ha : env.authReached = true) :
    ∃ rest, MCPAuthClient.connect_2_mcp_server env =
      CEvent.start :: CEvent.wait :: CEvent.stop :: rest := by
  unfold MCPAuthClient.connect_2_mcp_server
  rw [hb, if_neg (by simp), if_pos hv, ha, if_pos rfl]
  exact ⟨_, rfl⟩

/-- Witness for the amended C2: a run over SSE transport whose wait times
out still stops the listener right after the wait. -/
theorem connect_2_mcp_server_stop_after_wait_witness :
    ∃ rest, MCPAuthClient.connect_2_mcp_server
        { transport := "sse", bindFails := false, authReached := true,
          waitOutcome := WaitOutcome.timedOut, sessionFails := false }
      = CEvent.start :: CEvent.wait :: CEvent.stop :: rest :=
  connect_2_mcp_server_stop_after_wait
    { transport := "sse", bindFails := false, authReached := true,
      waitOutcome := WaitOutcome.timedOut, sessionFails := false }
    rfl (by decide) rfl

/-- Whether the pattern list of characters begins the other list. -/
def charListBegins : List Char → List Char → Bool
  | [], _ => true
  | _ :: _, [] => false
  | p :: ps, c :: cs => (p = c) && charListBegins ps cs

/-- Python str.startswith. -/
def strStartsWith (s pre : String) : Bool :=
  charListBegins pre.toList s.toList

/-- Python str.strip with no argument: drop whitespace from both ends. -/
def pyStrip (s : String) : String :=
  String.mk (((s.toList.dropWhile Char.isWhitespace).reverse.dropWhile
    Char.isWhitespace).reverse)

/-- Python str.split with maxsplit 2 and no separator: up to two splits on
whitespace runs, leading whitespace skipped, the third part keeping
everything after the second token with its leading whitespace removed. -/
def pySplitMax2 (s : String) : List String :=
  let cs := s.toList.dropWhile Char.isWhitespace
  match cs with
  | [] => []
  | _ =>
      let t1 := cs.takeWhile (fun c => !c.isWhitespace)
      let r1 := (cs.dropWhile (fun c => !c.isWhitespace)).dropWhile Char.isWhitespace
      match r1 with
      | [] => [String.mk t1]
      | _ =>
          let t2 := r1.takeWhile (fun c => !c.isWhitespace)
          let r2 := (r1.dropWhile (fun c => !c.isWhitespace)).dropWhile Char.isWhitespace
          match r2 with
          | [] => [String.mk t1, String.mk t2]
          | _ => [String.mk t1, String.mk t2, String.mk r2]

/-- One user-visible event of the interactive loop; α is the type of parsed
JSON argument values. -/
inductive LoopEvent (α : Type)
  | errMissingTool
  | errBadJson
  | unknownCmd
  | listTools
  | callTool (tool_name : String) (arguments : α)
deriving DecidableEq, Repr

/-- The call branch of the loop body: parts is split with maxsplit 2,
tool_name is parts[1] or empty, a missing tool name is reported; with a
third part present, json.loads is attempted and a decode failure is
reported; otherwise the tool is called with the parsed or empty
arguments. -/
def callCommandEvent {α : Type} (json_loads : String → Option α) (emptyArgs : α)
    (command : String) : LoopEvent α :=
  if (pySplitMax2 command).getD 1 "" = "" then LoopEvent.errMissingTool
  else if (pySplitMax2 command).length > 2 then
    match json_loads ((pySplitMax2 command).getD 2 "") with
    | none => LoopEvent.errBadJson
    | some args => LoopEvent.callTool ((pySplitMax2 command).getD 1 "") args
  else LoopEvent.callTool ((pySplitMax2 command).getD 1 "") emptyArgs

/-- MCPAuthClient.interactive_loop over the list of input lines (the end of
the list is EOF, which breaks the loop), returning the user-visible events
in order. Each line is stripped; empty lines are skipped, quit breaks,
list lists tools, a line starting with the five characters of call and a
space is handled by the call branch, anything else is reported as an
unknown command. Every branch except quit and EOF continues with the next
line; the only exceptions the body can raise (KeyboardInterrupt, EOFError
from input) terminate the loop cleanly and are not modelled beyond list
exhaustion. -/
def MCPAuthClient.interactive_loop {α : Type} (json_loads : String → Option α)
    (emptyArgs : α) : List String → List (LoopEvent α)
  | [] => []
  | line :: rest =>
      if pyStrip line = "" then
        MCPAuthClient.interactive_loop json_loads emptyArgs rest
      else if pyStrip line = "quit" then []
      else if pyStrip line = "list" then
        LoopEvent.listTools :: MCPAuthClient.interactive_loop json_loads emptyArgs rest
      else if strStartsWith (pyStrip line) "call " = true then
        callCommandEvent json_loads emptyArgs (pyStrip line) ::
          MCPAuthClient.interactive_loop json_loads emptyArgs rest
      else
        LoopEvent.unknownCmd :: MCPAuthClient.interactive_loop json_loads emptyArgs rest

/-- C6: when a call line carries an argument string that json.loads cannot
parse, the loop reports the invalid-arguments InputError for that line and
then continues with the remaining input exactly as if the line had not
been there; the failure neither ends the loop nor escapes it. -/
theorem interactive_loop_bad_json_continues {α : Type}
    (json_loads : String → Option α) (emptyArgs : α)
    (line tool_name argstr : String) (rest : List String)
    (h1 : pyStrip line ≠ "") (h2 : pyStrip line ≠ "quit") (h3 : pyStrip line ≠ "list")
    (h4 : strStartsWith (pyStrip line) "call " = true)
    (h5 : pySplitMax2 (pyStrip line) = ["call", tool_name, argstr])
    (h6 : tool_name ≠ "") (h7 : json_loads argstr = none) :
    MCPAuthClient.interactive_loop json_loads emptyArgs (line :: rest) =
      LoopEvent.errBadJson ::
        MCPAuthClient.interactive_loop json_loads emptyArgs rest := by
  show (if pyStrip line = "" then
          MCPAuthClient.interactive_loop json_loads emptyArgs rest
        else if pyStrip line = "quit" then []
        else if pyStrip line = "list" then
          LoopEvent.listTools :: MCPAuthClient.interactive_loop json_loads emptyArgs rest
        else if strStartsWith (pyStrip line) "call " = true then
          callCommandEvent json_loads emptyArgs (pyStrip line) ::
            MCPAuthClient.interactive_loop json_loads emptyArgs rest
        else
          LoopEvent.unknownCmd :: MCPAuthClient.interactive_loop json_loads emptyArgs rest)
      = LoopEvent.errBadJson ::
          MCPAuthClient.interactive_loop json_loads emptyArgs rest
  rw [if_neg h1, if_neg h2, if_neg h3, if_pos h4]
  have hev : callCommandEvent json_loads emptyArgs (pyStrip line) =
      LoopEvent.errBadJson := by
    unfold callCommandEvent
    rw [h5]
    simp [h6, h7]
  rw [hev]

/-- Witness for C6: the line calling mytool with an unparsable argument
string produces the InputError and the following list command still runs. -/
theorem interactive_loop_bad_json_continues_witness :
    MCPAuthClient.interactive_loop (fun _ => (none : Option Unit)) ()
        ["call mytool badjson", "list"]
      = [LoopEvent.errBadJson, LoopEvent.listTools] := by
  have h := interactive_loop_bad_json_continues (fun _ => (none : Option Unit)) ()
    "call mytool badjson" "mytool" "badjson" ["list"]
    (by decide) (by decide) (by decide) (by decide) (by decide) (by decide) rfl
  rw [h]
  decide

/-- Counterexample for C7: the bare line call does not reach the
missing-tool-name branch at all. Stripped, it does not start with call
plus a space, so the loop reports it as an unknown command; no InputError
event (neither the missing-tool-name nor the invalid-JSON one) is
produced, although the loop does stay active and runs the following list
command. -/
theorem interactive_loop_call_alone_counterexample :
    MCPAuthClient.interactive_loop (fun _ => (none : Option Unit)) () ["call", "list"]
      = [LoopEvent.unknownCmd, LoopEvent.listTools] ∧
    LoopEvent.errMissingTool ∉
      MCPAuthClient.interactive_loop (fun _ => (none : Option Unit)) () ["call", "list"] ∧
    LoopEvent.errBadJson ∉
      MCPAuthClient.interactive_loop (fun _ => (none : Option Unit)) () ["call", "list"] := by
  refine ⟨by decide, by decide, by decide⟩

/-- C7 (amended): the exact input call with no tool name is reported as an
unknown command rather than as the missing-tool-name InputError, and the
loop remains active: it does not crash and processes a subsequent list
command normally. -/
theorem interactive_loop_call_alone_unknown {α : Type}
    (json_loads : String → Option α) (emptyArgs : α) (rest : List String) :
    MCPAuthClient.interactive_loop json_loads emptyArgs ("call" :: "list" :: rest) =
      LoopEvent.unknownCmd :: LoopEvent.listTools ::
        MCPAuthClient.interactive_loop json_loads emptyArgs rest := by
  rfl

/-- A session object as far as list_tools and call_tool observe it: the
response (or raised exception) the server produces for each request. -/
structure SessionModel where
  list_tools_response : Except String (List (String × Option String))
  call_tool_response : String → List (String × String) → Except String (List String)

/-- The user-visible outcome of one list_tools or call_tool invocation. -/
inductive ClientReport
  | notConnected
  | listed (tools : List (String × Option String))
  | noTools
  | toolResult (contents : List String)
  | failed (msg : String)
deriving DecidableEq, Repr

/-- MCPAuthClient.list_tools: with self.session still None it warns
not-connected and returns without contacting the server; otherwise it
reports the tools, the absence of tools, or the caught exception. -/
def MCPAuthClient.list_tools (session : Option SessionModel) : ClientReport :=
  match session with
  | none => ClientReport.notConnected
  | some s =>
      match s.list_tools_response with
      | Except.ok tools =>
          if tools.isEmpty then ClientReport.noTools else ClientReport.listed tools
      | Except.error e => ClientReport.failed e

/-- MCPAuthClient.call_tool: with self.session still None it warns
not-connected and returns without contacting the server; otherwise it
reports the tool result or the caught exception. -/
def MCPAuthClient.call_tool (session : Option SessionModel) (tool_name : String)
    (arguments : List (String × String)) : ClientReport :=
  match session with
  | none => ClientReport.notConnected
  | some s =>
      match s.call_tool_response tool_name arguments with
      | Except.ok contents => ClientReport.toolResult contents
      | Except.error e => ClientReport.failed e

/-- C8: before a session has been opened (self.session is None), both
list_tools and call_tool — for every tool name and argument list — fail
with the not-connected report and never reach the server. -/
theorem list_tools_call_tool_not_connected (tool_name : String)
    (arguments : List (String × String)) :
    MCPAuthClient.list_tools none = ClientReport.notConnected ∧
    MCPAuthClient.call_tool none tool_name arguments = ClientReport.notConnected :=
  ⟨rfl, rfl⟩
